import Mathlib

/-!
Verification of `simplemediawiki.py` (python-simplemediawiki).

The file shallowly embeds the observable behaviour of the `MediaWiki` class:

* Python string-keyed dicts are association lists in insertion order with
  unique keys; `setParam` is dict assignment `params[k] = v`.
* `fetch_http_request` is the request built by `MediaWiki._fetch_http`
  (injection of `format=json`, GET vs POST selection through `force_get`).
* The stateful methods (`do_login`, `logout`, `limits`, `namespaces`) take the
  server's decoded responses as explicit arguments (a script of login results,
  a rights list, a namespace table) and return, besides their Python return
  value and the updated object state, the list of HTTP requests they issued,
  so that request-count properties can be stated.
* `normalize_api_url` takes the transport as an explicit function that can
  fail (modelling exceptions raised by the HTTP opener) and a JSON decoder
  that can fail (modelling `ValueError` from `json.loads`, the only
  exception caught by the inner `tester`). The Python truthiness test
  `if data_json:` is modelled by `jsonTruthy`.
* `parse_date` embeds `datetime.strptime(date, "%Y-%m-%dT%H:%M:%SZ")`
  following CPython's `_strptime` module: `%Y` matches exactly four digits,
  `%m` matches `1[0-2]|0[1-9]|[1-9]`, `%d` matches `3[01]|[12]\d|0[1-9]|[1-9]`,
  `%H` matches `2[0-3]|[0-1]\d|\d`, `%M` matches `[0-5]\d|\d`, `%S` matches
  `6[0-1]|[0-5]\d|\d`. The bare `\d` positions match any Unicode decimal
  digit (category Nd — the pattern is a str pattern compiled without
  `re.ASCII`, and `int()` reads Nd digits by their decimal values), while
  the explicit bracket classes such as `[0-2]` are ASCII code-point ranges.
  Literals are matched case-insensitively (the format is compiled with
  `re.IGNORECASE`, so `T`/`Z` also match `t`/`z`), the whole string must be
  consumed, and the resulting fields must pass the `datetime` constructor's
  range checks (year 1..9999, day valid for the month, second at most 59).
-/

/-- Python dict assignment `ps[k] = v` on a string-keyed dict modelled as an
association list in insertion order: overwrite the value when the key is
present, otherwise append the new binding at the end. -/
def setParam (ps : List (String × String)) (k v : String) : List (String × String) :=
  if ps.any (fun p => p.1 == k) then
    ps.map (fun p => if p.1 == k then (k, v) else p)
  else
    ps ++ [(k, v)]

/-- Python dict lookup `ps[k]` as an `Option`. -/
def lookupParam (ps : List (String × String)) (k : String) : Option String :=
  match ps.find? (fun p => p.1 == k) with
  | some p => some p.2
  | none => none

/-- HTTP request mode chosen by `MediaWiki._fetch_http`: `urllib2.Request`
with only a URL (query string appended) is a GET, with a body it is a POST. -/
inductive HttpMethod where
  | get
  | post
deriving DecidableEq

/-- The observable content of one HTTP request issued by the client. -/
structure Request where
  url : String
  params : List (String × String)
  method : HttpMethod
deriving DecidableEq

/-- The request built by `MediaWiki._fetch_http(url, params, force_get)`:
it first executes `params['format'] = 'json'` and then sends the encoded
parameters as a query string (GET) when `force_get` is set, as a POST body
otherwise. -/
def fetch_http_request (url : String) (params : List (String × String))
    (force_get : Bool) : Request :=
  { url := url
    params := setParam params "format" "json"
    method := if force_get then HttpMethod.get else HttpMethod.post }

/-- The mutable per-instance state of a `MediaWiki` object that the claims
are about: `_api_url`, `_high_limits`, `_namespaces`, `_psuedo_namespaces`
(all three caches start out as `None`). -/
structure ClientState where
  api_url : String
  high_limits : Option Bool
  namespaces : Option (List (Int × String))
  psuedo_namespaces : Option (List (Int × String))
deriving DecidableEq

/-- The request sent by `MediaWiki.call(params)`: a `_fetch_http` to
`self._api_url` with `force_get` left at its default `False`. -/
def call_request (st : ClientState) (params : List (String × String)) : Request :=
  fetch_http_request st.api_url params false

/-- Decoded server response to one `action=login` call:
`result['login']['result']` is `Success`, `NeedToken` (carrying
`result['login']['token']`), or anything else. -/
inductive LoginResult where
  | success
  | needToken (token : String)
  | other
deriving DecidableEq

/-- Python truthiness of an optional string: `None` and the empty string are
falsy, every other string is truthy (used for `if domain:`, `if token:` and
`not token` in `login`). -/
def pyTruthy (s : Option String) : Bool :=
  match s with
  | none => false
  | some str => !(str == "")

/-- The parameter dict built at the start of `do_login`: `action`, `lgname`,
`lgpassword`, then `lgdomain` when `domain` is truthy and `lgtoken` when
`token` is truthy. -/
def login_params (user passwd : String) (token domain : Option String) :
    List (String × String) :=
  let data := [("action", "login"), ("lgname", user), ("lgpassword", passwd)]
  let data := if pyTruthy domain then setParam data "lgdomain" (domain.getD "") else data
  if pyTruthy token then setParam data "lgtoken" (token.getD "") else data

/-- `do_login`, the recursive inner helper of `MediaWiki.login`. The server
is a script of decoded responses, consumed one per issued request; an
exhausted script models a transport that never answers (result `none`).
On `Success` the permission cache is cleared and `True` is returned; on
`NeedToken` with a falsy current token the call recurses with the
server-supplied token; every other outcome returns `False`. -/
def do_login (st : ClientState) (user passwd : String) (token domain : Option String) :
    List LoginResult → Option Bool × ClientState × List Request
  | [] => (none, st, [call_request st (login_params user passwd token domain)])
  | r :: rest =>
    let req := call_request st (login_params user passwd token domain)
    match r with
    | LoginResult.success => (some true, { st with high_limits := none }, [req])
    | LoginResult.needToken tok =>
      if pyTruthy token then
        (some false, st, [req])
      else
        let inner := do_login st user passwd (some tok) domain rest
        (inner.1, inner.2.1, req :: inner.2.2)
    | LoginResult.other => (some false, st, [req])

/-- `MediaWiki.login(user, passwd, domain)` enters `do_login` with no token. -/
def login (st : ClientState) (user passwd : String) (domain : Option String)
    (script : List LoginResult) : Option Bool × ClientState × List Request :=
  do_login st user passwd none domain script

/-- `MediaWiki.logout()`: one `action=logout` call (response ignored), the
permission cache is cleared, `True` is always returned. -/
def logout (st : ClientState) : Bool × ClientState × List Request :=
  (true, { st with high_limits := none }, [call_request st [("action", "logout")]])

/-- The rights-lookup request issued by `MediaWiki.limits`. -/
def rights_request (st : ClientState) : Request :=
  call_request st [("action", "query"), ("meta", "userinfo"), ("uiprop", "rights")]

/-- `MediaWiki.limits(low, high)`: when `_high_limits` is `None`, fetch the
current user's rights (the server's decoded rights list is the `rights`
argument) and cache whether `apihighlimits` is among them; then select
`high` or `low` from the cached flag. -/
def limits {A : Type} (rights : List String) (st : ClientState) (low high : A) :
    A × ClientState × List Request :=
  match st.high_limits with
  | none =>
    let hl := rights.contains "apihighlimits"
    ((if hl then high else low), { st with high_limits := some hl }, [rights_request st])
  | some hl => ((if hl then high else low), st, [])

/-- The siteinfo/namespaces request issued by `MediaWiki.namespaces`. -/
def siteinfo_ns_request (st : ClientState) : Request :=
  call_request st [("action", "query"), ("meta", "siteinfo"), ("siprop", "namespaces")]

/-- Python dict assignment for the integer-keyed namespace dicts. -/
def setEntry (m : List (Int × String)) (k : Int) (v : String) : List (Int × String) :=
  if m.any (fun p => p.1 == k) then
    m.map (fun p => if p.1 == k then (k, v) else p)
  else
    m ++ [(k, v)]

/-- `retval.update(adds)`: fold dict assignment of every binding of `adds`
over `m` (Python `dict.update`). -/
def updateMap (m adds : List (Int × String)) : List (Int × String) :=
  adds.foldl (fun acc p => setEntry acc p.1 p.2) m

/-- `MediaWiki.namespaces(psuedo)`. The decoded server namespace table
(`result['query']['namespaces']`, one entry per namespace id with its `*`
name, unique keys) is the `info` argument. When `_namespaces` is `None` the
table is fetched once and partitioned by sign of the id into the two caches
(the insertion loop over a unique-key table equals an order-preserving
filter); with `psuedo` the returned dict is a fresh dict updated with the
content namespaces and then with the psuedo namespaces. The `none` result
models the `TypeError` Python would raise if `_psuedo_namespaces` were
`None` while `_namespaces` is set (a state the class never reaches). -/
def namespaces (info : List (Int × String)) (st : ClientState) (psuedo : Bool) :
    Option (List (Int × String) × ClientState × List Request) :=
  match st.namespaces with
  | none =>
    let content := info.filter (fun p => decide (0 ≤ p.1))
    let pseudoNs := info.filter (fun p => decide (p.1 < 0))
    let st1 := { st with namespaces := some content, psuedo_namespaces := some pseudoNs }
    if psuedo then
      some (updateMap content pseudoNs, st1, [siteinfo_ns_request st])
    else
      some (content, st1, [siteinfo_ns_request st])
  | some content =>
    if psuedo then
      match st.psuedo_namespaces with
      | some pseudoNs => some (updateMap content pseudoNs, st, [])
      | none => none
    else
      some (content, st, [])

/-- Decoded JSON value, with Python truthiness. -/
inductive PyJson where
  | jnull
  | jbool (b : Bool)
  | jnum (n : Int)
  | jstr (s : String)
  | jarr (elems : List PyJson)
  | jobj (fields : List (String × PyJson))

/-- Python truthiness of a decoded JSON value. -/
def PyJson.truthy : PyJson → Bool
  | PyJson.jnull => false
  | PyJson.jbool b => b
  | PyJson.jnum n => !(n == 0)
  | PyJson.jstr s => !(s == "")
  | PyJson.jarr elems => !elems.isEmpty
  | PyJson.jobj fields => !fields.isEmpty

/-- Truthiness of `data_json` in `normalize_api_url`, where `None` records a
`json.loads` failure. -/
def jsonTruthy : Option PyJson → Bool
  | none => false
  | some j => j.truthy

/-- The HTTP transport as seen by `_fetch_http`: either the decoded response
body, or an error modelling an exception from `self._opener.open` (network,
TLS or HTTP-status failure). -/
abbrev Transport : Type := Request → Except Unit String

/-- `'index.php' in url` on character lists (Python substring test). -/
def isPrefixL : List Char → List Char → Bool
  | [], _ => true
  | _ :: _, [] => false
  | a :: s1, b :: s2 => a == b && isPrefixL s1 s2

/-- Python `sub in s` (substring occurrence). -/
def subIn (sub : List Char) : List Char → Bool
  | [] => isPrefixL sub []
  | c :: rest => isPrefixL sub (c :: rest) || subIn sub rest

/-- Python `s.split(sub)[0]`: the characters before the first occurrence of
`sub` (the whole string when `sub` does not occur). -/
def splitHead (sub : List Char) : List Char → List Char
  | [] => []
  | c :: rest => if isPrefixL sub (c :: rest) then [] else c :: splitHead sub rest

/-- The probe parameters used by the inner `tester` of `normalize_api_url`. -/
def siteinfo_probe_params : List (String × String) :=
  [("action", "query"), ("meta", "siteinfo")]

/-- The probe request issued by `tester`: a `_fetch_http` with `force_get`
left at its default `False`. -/
def tester_request (api_url : String) : Request :=
  fetch_http_request api_url siteinfo_probe_params false

/-- The inner `tester` of `normalize_api_url`: fetch raw, then try
`json.loads`, catching only `ValueError` (decode failure yields a `None`
JSON value); a transport error propagates. -/
def tester (t : Transport) (jl : String → Option PyJson) (api_url : String) :
    Except Unit (Option PyJson) :=
  match t (tester_request api_url) with
  | Except.error e => Except.error e
  | Except.ok data => Except.ok (jl data)

/-- `MediaWiki.normalize_api_url()`: probe the configured URL; when the
decoded probe is truthy return it unchanged; otherwise, when the URL
contains `index.php`, probe the `api.php`-substituted candidate and on a
truthy decode mutate `_api_url` to it and return it; otherwise return
`None`. The first component collects the requests issued. -/
def normalize_api_url (t : Transport) (jl : String → Option PyJson) (st : ClientState) :
    List Request × Except Unit (Option String × ClientState) :=
  match tester t jl st.api_url with
  | Except.error e => ([tester_request st.api_url], Except.error e)
  | Except.ok data_json =>
    if jsonTruthy data_json then
      ([tester_request st.api_url], Except.ok (some st.api_url, st))
    else if subIn ("index.php".data) (st.api_url.data) then
      let test_api_url : String :=
        String.mk (splitHead ("index.php".data) (st.api_url.data)) ++ "api.php"
      match tester t jl test_api_url with
      | Except.error e =>
        ([tester_request st.api_url, tester_request test_api_url], Except.error e)
      | Except.ok test_json =>
        if jsonTruthy test_json then
          ([tester_request st.api_url, tester_request test_api_url],
            Except.ok (some test_api_url, { st with api_url := test_api_url }))
        else
          ([tester_request st.api_url, tester_request test_api_url], Except.ok (none, st))
    else
      ([tester_request st.api_url], Except.ok (none, st))

/-- The result of a successful `datetime.strptime`: a naive datetime. -/
structure PyDateTime where
  year : Nat
  month : Nat
  day : Nat
  hour : Nat
  minute : Nat
  second : Nat
deriving DecidableEq

/-- Numeric value of an ASCII digit character (used for the explicit
`[0-9]`-style bracket classes of the strptime regexes, which match only
ASCII code points). -/
def digVal (c : Char) : Nat := c.toNat - '0'.toNat

/-- Character range test, as used by the explicit bracket classes of the
strptime field regexes (code-point ranges, ASCII only). -/
def charBetween (c lo hi : Char) : Bool := decide (lo ≤ c) && decide (c ≤ hi)

/-- First code point of every run of ten consecutive Unicode decimal digits
(category Nd, digit values 0..9 in order), Unicode 14.0.0: the character
class that CPython's `\d` matches in a str pattern compiled without
`re.ASCII` — as `_strptime`'s are — and exactly the digits `int()`
accepts. -/
def ndDecadeStarts : List Nat :=
  [48, 1632, 1776, 1984, 2406, 2534, 2662, 2790, 2918, 3046, 3174, 3302,
    3430, 3558, 3664, 3792, 3872, 4160, 4240, 6112, 6160, 6470, 6608, 6784,
    6800, 6992, 7088, 7232, 7248, 42528, 43216, 43264, 43472, 43504, 43600,
    44016, 65296, 66720, 68912, 69734, 69872, 69942, 70096, 70384, 70736,
    70864, 71248, 71360, 71472, 71904, 72016, 72784, 73040, 73120, 92768,
    92864, 93008, 120782, 120792, 120802, 120812, 120822, 123200, 123632,
    125264, 130032]

/-- Membership in the regex class `\d`: any Unicode decimal digit
(category Nd). -/
def isDigitNd (c : Char) : Bool :=
  ndDecadeStarts.any (fun b => decide (b ≤ c.toNat) && decide (c.toNat ≤ b + 9))

/-- Decimal value of a Unicode decimal digit, as `int()` reads it: its
offset within its run of ten. -/
def digValNd (c : Char) : Nat :=
  match ndDecadeStarts.find? (fun b => decide (b ≤ c.toNat) && decide (c.toNat ≤ b + 9)) with
  | some b => c.toNat - b
  | none => 0

/-- strptime `%Y`: regex `\d\d\d\d`, exactly four Unicode decimal digits,
converted by `int()`. -/
def match_Y : List Char → Option (Nat × List Char)
  | c1 :: c2 :: c3 :: c4 :: rest =>
    if isDigitNd c1 && isDigitNd c2 && isDigitNd c3 && isDigitNd c4 then
      some (((digValNd c1 * 10 + digValNd c2) * 10 + digValNd c3) * 10 + digValNd c4,
        rest)
    else none
  | _ => none

/-- strptime `%m`: regex `1[0-2]|0[1-9]|[1-9]`. Ordered choice suffices for
the full-format regex: whenever a two-character alternative matches, its
second character is a digit, so the literal separator that follows in the
format can never match it and regex backtracking into a shorter alternative
cannot create new matches. -/
def match_m : List Char → Option (Nat × List Char)
  | c1 :: c2 :: rest =>
    if c1 == '1' && charBetween c2 '0' '2' then some (10 + digVal c2, rest)
    else if c1 == '0' && charBetween c2 '1' '9' then some (digVal c2, rest)
    else if charBetween c1 '1' '9' then some (digVal c1, c2 :: rest)
    else none
  | [c1] => if charBetween c1 '1' '9' then some (digVal c1, []) else none
  | [] => none

/-- strptime `%d`: regex `3[01]|[12]\d|0[1-9]|[1-9]`. -/
def match_d : List Char → Option (Nat × List Char)
  | c1 :: c2 :: rest =>
    if c1 == '3' && charBetween c2 '0' '1' then some (30 + digVal c2, rest)
    else if charBetween c1 '1' '2' && isDigitNd c2 then
      some (digVal c1 * 10 + digValNd c2, rest)
    else if c1 == '0' && charBetween c2 '1' '9' then some (digVal c2, rest)
    else if charBetween c1 '1' '9' then some (digVal c1, c2 :: rest)
    else none
  | [c1] => if charBetween c1 '1' '9' then some (digVal c1, []) else none
  | [] => none

/-- strptime `%H`: regex `2[0-3]|[0-1]\d|\d`. -/
def match_H : List Char → Option (Nat × List Char)
  | c1 :: c2 :: rest =>
    if c1 == '2' && charBetween c2 '0' '3' then some (20 + digVal c2, rest)
    else if charBetween c1 '0' '1' && isDigitNd c2 then
      some (digVal c1 * 10 + digValNd c2, rest)
    else if isDigitNd c1 then some (digValNd c1, c2 :: rest)
    else none
  | [c1] => if isDigitNd c1 then some (digValNd c1, []) else none
  | [] => none

/-- strptime `%M`: regex `[0-5]\d|\d`. -/
def match_M : List Char → Option (Nat × List Char)
  | c1 :: c2 :: rest =>
    if charBetween c1 '0' '5' && isDigitNd c2 then
      some (digVal c1 * 10 + digValNd c2, rest)
    else if isDigitNd c1 then some (digValNd c1, c2 :: rest)
    else none
  | [c1] => if isDigitNd c1 then some (digValNd c1, []) else none
  | [] => none

/-- strptime `%S`: regex `6[0-1]|[0-5]\d|\d` (leap seconds are matched by the
regex and rejected later by the `datetime` constructor). -/
def match_S : List Char → Option (Nat × List Char)
  | c1 :: c2 :: rest =>
    if c1 == '6' && charBetween c2 '0' '1' then some (60 + digVal c2, rest)
    else if charBetween c1 '0' '5' && isDigitNd c2 then
      some (digVal c1 * 10 + digValNd c2, rest)
    else if isDigitNd c1 then some (digValNd c1, c2 :: rest)
    else none
  | [c1] => if isDigitNd c1 then some (digValNd c1, []) else none
  | [] => none

/-- A literal of the strptime format. The format is compiled with
`re.IGNORECASE`, so a letter literal also matches its other case; both
admissible characters are passed explicitly (identical for punctuation). -/
def matchLit (ch chAlt : Char) : List Char → Option (List Char)
  | c :: rest => if c == ch || c == chAlt then some rest else none
  | [] => none

/-- The full strptime scan of `%Y-%m-%dT%H:%M:%SZ`: all fields and literals
in sequence, and the whole input must be consumed (otherwise Python raises
`ValueError: unconverted data remains`). -/
def scanDate (cs : List Char) : Option (Nat × Nat × Nat × Nat × Nat × Nat) :=
  Option.bind (match_Y cs) (fun yc =>
  Option.bind (matchLit '-' '-' yc.2) (fun cs2 =>
  Option.bind (match_m cs2) (fun mc =>
  Option.bind (matchLit '-' '-' mc.2) (fun cs4 =>
  Option.bind (match_d cs4) (fun dc =>
  Option.bind (matchLit 'T' 't' dc.2) (fun cs6 =>
  Option.bind (match_H cs6) (fun hc =>
  Option.bind (matchLit ':' ':' hc.2) (fun cs8 =>
  Option.bind (match_M cs8) (fun mic =>
  Option.bind (matchLit ':' ':' mic.2) (fun cs10 =>
  Option.bind (match_S cs10) (fun sc =>
  Option.bind (matchLit 'Z' 'z' sc.2) (fun cs12 =>
  match cs12 with
  | [] => some (yc.1, mc.1, dc.1, hc.1, mic.1, sc.1)
  | _ :: _ => none))))))))))))

/-- Gregorian leap year, as used by `datetime`. -/
def isLeapYear (y : Nat) : Bool := y % 4 == 0 && (!(y % 100 == 0) || y % 400 == 0)

/-- Number of days of a month, as validated by the `datetime` constructor. -/
def daysInMonth (y m : Nat) : Nat :=
  if m == 2 then (if isLeapYear y then 29 else 28)
  else if m == 4 || m == 6 || m == 9 || m == 11 then 30
  else 31

/-- The range checks of the `datetime(year, month, day, hour, minute,
second)` constructor. -/
def validRanges (y mo d h mi s : Nat) : Prop :=
  1 ≤ y ∧ y ≤ 9999 ∧ 1 ≤ mo ∧ mo ≤ 12 ∧ 1 ≤ d ∧ d ≤ daysInMonth y mo ∧
    h ≤ 23 ∧ mi ≤ 59 ∧ s ≤ 59

instance (y mo d h mi s : Nat) : Decidable (validRanges y mo d h mi s) := by
  unfold validRanges
  infer_instance

/-- The `datetime` constructor: the parsed fields must be in range. -/
def mkDatetime (y mo d h mi s : Nat) : Option PyDateTime :=
  if validRanges y mo d h mi s then some ⟨y, mo, d, h, mi, s⟩ else none

/-- `MediaWiki.parse_date(date)`, i.e.
`datetime.strptime(date, "%Y-%m-%dT%H:%M:%SZ")`; `none` models the
`ValueError` raised on a failed match or out-of-range fields. -/
def parse_date (s : String) : Option PyDateTime :=
  match scanDate s.data with
  | some (y, mo, d, h, mi, sec) => mkDatetime y mo d h mi sec
  | none => none

/-- A decimal digit character. -/
def digitChar (n : Nat) : Char :=
  match n with
  | 0 => '0'
  | 1 => '1'
  | 2 => '2'
  | 3 => '3'
  | 4 => '4'
  | 5 => '5'
  | 6 => '6'
  | 7 => '7'
  | 8 => '8'
  | 9 => '9'
  | _ => '0'

/-- Two-digit zero-padded decimal rendering. -/
def pad2 (n : Nat) : List Char := [digitChar (n / 10 % 10), digitChar (n % 10)]

/-- Four-digit zero-padded decimal rendering. -/
def pad4 (n : Nat) : List Char :=
  [digitChar (n / 1000 % 10), digitChar (n / 100 % 10), digitChar (n / 10 % 10),
    digitChar (n % 10)]

/-- The characters of the exact `YYYY-MM-DDTHH:MM:SSZ` rendering of a
datetime. -/
def dateChars (dt : PyDateTime) : List Char :=
  pad4 dt.year ++ '-' :: (pad2 dt.month ++ '-' :: (pad2 dt.day ++ 'T' ::
    (pad2 dt.hour ++ ':' :: (pad2 dt.minute ++ ':' :: (pad2 dt.second ++ ['Z'])))))

/-- Re-serialization of a datetime in the exact `YYYY-MM-DDTHH:MM:SSZ`
format. -/
def format_date (dt : PyDateTime) : String := String.mk (dateChars dt)

/-- The range checks of the `datetime` constructor, on a datetime value. -/
def validDate (dt : PyDateTime) : Prop :=
  validRanges dt.year dt.month dt.day dt.hour dt.minute dt.second

instance (dt : PyDateTime) : Decidable (validDate dt) := by
  unfold validDate
  infer_instance

/-- `script.all` check that every `NeedToken` response of a server script
carries a nonempty token (a MediaWiki server always does; Python treats an
empty token string as absent because of string truthiness). -/
def tokensNonempty (script : List LoginResult) : Bool :=
  script.all (fun r =>
    match r with
    | LoginResult.needToken t => !(t == "")
    | _ => true)

/-- The content-namespace part of a decoded namespace table (ids at least
zero), as cached in `_namespaces`. -/
def contentOf (info : List (Int × String)) : List (Int × String) :=
  info.filter (fun p => decide (0 ≤ p.1))

/-- The psuedo-namespace part of a decoded namespace table (negative ids),
as cached in `_psuedo_namespaces`. -/
def pseudoOf (info : List (Int × String)) : List (Int × String) :=
  info.filter (fun p => decide (p.1 < 0))

theorem find?_append_last {α : Type} (f : α → Bool) (ps : List α) (x : α)
    (h : ps.any f = false) (hx : f x = true) : List.find? f (ps ++ [x]) = some x := by
  induction ps with
  | nil => simp [List.find?, hx]
  | cons hd tl ih =>
    rw [List.any_cons] at h
    have h1 : f hd = false := by
      cases hf : f hd
      · rfl
      · rw [hf] at h; simp at h
    have h2 : tl.any f = false := by
      cases ht : tl.any f
      · rfl
      · rw [ht] at h; simp at h
    rw [List.cons_append, List.find?_cons_of_neg _ (by simp [h1]), ih h2]

theorem find?_map_overwrite (k v : String) (ps : List (String × String))
    (h : ps.any (fun p => p.1 == k) = true) :
    List.find? (fun p => p.1 == k)
      (ps.map (fun p => if p.1 == k then (k, v) else p)) = some (k, v) := by
  induction ps with
  | nil => simp at h
  | cons hd tl ih =>
    cases hh : (hd.1 == k) with
    | true =>
      rw [List.map_cons, if_pos hh]
      exact List.find?_cons_of_pos _ (by simp)
    | false =>
      rw [List.any_cons, hh, Bool.false_or] at h
      rw [List.map_cons, if_neg (by simp [hh]), List.find?_cons_of_neg _ (by simp [hh]), ih h]

theorem lookup_setParam (ps : List (String × String)) (k v : String) :
    lookupParam (setParam ps k v) k = some v := by
  unfold setParam lookupParam
  cases h : ps.any (fun p => p.1 == k) with
  | false =>
    rw [if_neg (by simp [h]), find?_append_last _ _ _ h (by simp)]
  | true =>
    rw [if_pos (by simp [h]), find?_map_overwrite k v ps h]

theorem do_login_true_state (st : ClientState) (u p : String) (tok d : Option String)
    (script : List LoginResult) (h : (do_login st u p tok d script).1 = some true) :
    (do_login st u p tok d script).2.1 = { st with high_limits := none } := by
  induction script generalizing tok with
  | nil => simp [do_login] at h
  | cons r rest ih =>
    cases r with
    | success => rfl
    | other => simp [do_login] at h
    | needToken t2 =>
      cases hp : pyTruthy tok with
      | true => simp [do_login, hp] at h
      | false =>
        simp only [do_login, hp, Bool.false_eq_true, if_false] at h ⊢
        exact ih (some t2) h

theorem do_login_false_state (st : ClientState) (u p : String) (tok d : Option String)
    (script : List LoginResult) (h : (do_login st u p tok d script).1 = some false) :
    (do_login st u p tok d script).2.1 = st := by
  induction script generalizing tok with
  | nil => simp [do_login] at h
  | cons r rest ih =>
    cases r with
    | success => simp [do_login] at h
    | other => rfl
    | needToken t2 =>
      cases hp : pyTruthy tok with
      | true => simp [do_login, hp]
      | false =>
        simp only [do_login, hp, Bool.false_eq_true, if_false] at h ⊢
        exact ih (some t2) h

theorem mem_keys_setEntry (m : List (Int × String)) (k0 : Int) (v : String) (k : Int)
    (h : k ∈ m.map Prod.fst) : k ∈ (setEntry m k0 v).map Prod.fst := by
  unfold setEntry
  cases hc : m.any (fun p => p.1 == k0) with
  | true =>
    rw [if_pos (by simp [hc])]
    rw [List.mem_map] at h
    obtain ⟨p, hp, hk⟩ := h
    rw [List.mem_map]
    refine ⟨if p.1 == k0 then (k0, v) else p, List.mem_map_of_mem _ hp, ?_⟩
    cases hpk : (p.1 == k0) with
    | true =>
      have : p.1 = k0 := by simpa using hpk
      simp [hpk, ← this, hk]
    | false => simp [hpk, hk]
  | false =>
    rw [if_neg (by simp [hc]), List.map_append, List.mem_append]
    exact Or.inl h

theorem mem_keys_updateMap (m adds : List (Int × String)) (k : Int)
    (h : k ∈ m.map Prod.fst) : k ∈ (updateMap m adds).map Prod.fst := by
  induction adds generalizing m with
  | nil => rw [updateMap, List.foldl_nil]; exact h
  | cons a rest ih =>
    rw [updateMap, List.foldl_cons]
    exact ih (setEntry m a.1 a.2) (mem_keys_setEntry m a.1 a.2 k h)

/-- Claim C1 counterexample: a logout returns `True` but leaves both parts
of the cached namespace table set; they are not reset to unknown, so the
claim that every logout resets the namespace table to `None` is false. -/
theorem logout_keeps_namespace_cache_cex :
    (logout ⟨"u", some true, some [(0, "Main")], some [(-1, "Special")]⟩).1 = true ∧
    (logout ⟨"u", some true, some [(0, "Main")], some [(-1, "Special")]⟩).2.1.namespaces ≠ none ∧
    (logout ⟨"u", some true, some [(0, "Main")],
      some [(-1, "Special")]⟩).2.1.psuedo_namespaces ≠ none := by
  decide

/-- Claim C1, amended: every logout, and every login that returns `True`,
resets exactly the cached permission flag to `None`; the cached namespace
table (`_namespaces` and `_psuedo_namespaces`) and the endpoint URL are
left unchanged. -/
theorem login_logout_clear_only_high_limits :
    (∀ st : ClientState,
      (logout st).1 = true ∧ (logout st).2.1 = { st with high_limits := none }) ∧
    (∀ (st : ClientState) (u p : String) (d : Option String) (script : List LoginResult),
      (login st u p d script).1 = some true →
      (login st u p d script).2.1 = { st with high_limits := none }) := by
  constructor
  · intro st
    exact ⟨rfl, rfl⟩
  · intro st u p d script h
    exact do_login_true_state st u p none d script h

theorem login_logout_clear_only_high_limits_witness :
    (login ⟨"u", some true, some [(0, "Main")], none⟩ "a" "b" none [LoginResult.success]).1
      = some true ∧
    (login ⟨"u", some true, some [(0, "Main")], none⟩ "a" "b" none [LoginResult.success]).2.1
      = ⟨"u", none, some [(0, "Main")], none⟩ :=
  ⟨by decide,
    login_logout_clear_only_high_limits.2 ⟨"u", some true, some [(0, "Main")], none⟩
      "a" "b" none [LoginResult.success] (by decide)⟩

/-- Claim C2 counterexample: a server that answers `NeedToken` with an empty
token string defeats the recursion guard (`not token` is true for the empty
string), so after two `NeedToken` responses a third login request is issued;
`login` is not bounded by two requests for every server behaviour. -/
theorem login_empty_token_retry_cex :
    (login ⟨"u", none, none, none⟩ "alice" "pw" none
      [LoginResult.needToken "", LoginResult.needToken "", LoginResult.other]).1
        = some false ∧
    (login ⟨"u", none, none, none⟩ "alice" "pw" none
      [LoginResult.needToken "", LoginResult.needToken "", LoginResult.other]).2.2.length
        = 3 := by
  decide

/-- Claim C2, amended: `login` issues a first request without a token; a
`NeedToken` response followed by `Success` yields `True` after exactly two
requests, and a `NeedToken` response with a nonempty token followed by a
second `NeedToken` yields `False` after exactly two requests; in general at
most two requests are issued provided every `NeedToken` response of the
server carries a nonempty token (an empty token is falsy in Python and
triggers a further retry). -/
theorem login_csrf_two_requests :
    (∀ (st : ClientState) (u p : String) (d : Option String) (tok : String)
        (rest : List LoginResult),
      (login st u p d (LoginResult.needToken tok :: LoginResult.success :: rest)).1
          = some true ∧
      (login st u p d
        (LoginResult.needToken tok :: LoginResult.success :: rest)).2.2.length = 2) ∧
    (∀ (st : ClientState) (u p : String) (d : Option String) (tok tok2 : String)
        (rest : List LoginResult), tok ≠ "" →
      (login st u p d (LoginResult.needToken tok :: LoginResult.needToken tok2 :: rest)).1
          = some false ∧
      (login st u p d
        (LoginResult.needToken tok :: LoginResult.needToken tok2 :: rest)).2.2.length = 2) ∧
    (∀ (st : ClientState) (u p : String) (d : Option String) (script : List LoginResult),
      tokensNonempty script = true → (login st u p d script).2.2.length ≤ 2) := by
  refine ⟨?_, ?_, ?_⟩
  · intro st u p d tok rest
    constructor
    · simp [login, do_login, pyTruthy]
    · simp [login, do_login, pyTruthy]
  · intro st u p d tok tok2 rest h
    constructor
    · simp [login, do_login, pyTruthy, h]
    · simp [login, do_login, pyTruthy, h]
  · intro st u p d script h
    cases script with
    | nil => simp [login, do_login]
    | cons r rest =>
      cases r with
      | success => simp [login, do_login]
      | other => simp [login, do_login]
      | needToken t =>
        simp only [tokensNonempty, List.all_cons, Bool.and_eq_true] at h
        have ht : ¬(t = "") := by
          have h1 := h.1
          simp at h1
          exact h1
        cases rest with
        | nil => simp [login, do_login, pyTruthy]
        | cons r2 rest2 =>
          cases r2 with
          | success => simp [login, do_login, pyTruthy]
          | other => simp [login, do_login, pyTruthy]
          | needToken t3 => simp [login, do_login, pyTruthy, ht]

theorem login_csrf_two_requests_witness :
    "t1" ≠ "" ∧
    (login ⟨"u", none, none, none⟩ "a" "b" none
      [LoginResult.needToken "t1", LoginResult.needToken "t2"]).1 = some false ∧
    (login ⟨"u", none, none, none⟩ "a" "b" none
      [LoginResult.needToken "t1", LoginResult.needToken "t2"]).2.2.length = 2 :=
  ⟨by decide,
    login_csrf_two_requests.2.1 ⟨"u", none, none, none⟩ "a" "b" none "t1" "t2" []
      (by decide)⟩

/-- Claim C5: the request sent by `call(P)` always maps `format` to `json`
in its parameter set, also when the caller's `P` already binds `format`
(the assignment `params['format'] = 'json'` in `_fetch_http` overwrites
it). -/
theorem call_sends_format_json (st : ClientState) (params : List (String × String)) :
    lookupParam (call_request st params).params "format" = some "json" :=
  lookup_setParam params "format" "json"

/-- Claim C10: a login that returns `False` leaves the client state exactly
as it was: the permission flag and both namespace caches are unchanged
(only the `Success` branch of `do_login` mutates state). -/
theorem failed_login_preserves_state (st : ClientState) (u p : String) (d : Option String)
    (script : List LoginResult) (h : (login st u p d script).1 = some false) :
    (login st u p d script).2.1 = st :=
  do_login_false_state st u p none d script h

theorem failed_login_preserves_state_witness :
    (login ⟨"u", some true, some [(4, "X")], some [(-1, "S")]⟩ "a" "b" none
      [LoginResult.other]).1 = some false ∧
    (login ⟨"u", some true, some [(4, "X")], some [(-1, "S")]⟩ "a" "b" none
      [LoginResult.other]).2.1 = ⟨"u", some true, some [(4, "X")], some [(-1, "S")]⟩ :=
  ⟨by decide,
    failed_login_preserves_state ⟨"u", some true, some [(4, "X")], some [(-1, "S")]⟩
      "a" "b" none [LoginResult.other] (by decide)⟩

/-- Claim C6 counterexample: starting from a fresh client, one `limits` call
populates the cache with one rights-lookup request; a login then occurs and
returns `False`, after which the next `limits` call issues no request at
all — so the claim that the next `limits` call after any login issues a
fresh rights-lookup request is false (only a successful login clears the
cache). -/
theorem failed_login_keeps_limits_cache_cex :
    (limits ["apihighlimits"] ⟨"u", none, none, none⟩ (50 : Nat) 500).2.2.length = 1 ∧
    (login ((limits ["apihighlimits"] ⟨"u", none, none, none⟩ (50 : Nat) 500).2.1)
      "a" "b" none [LoginResult.other]).1 = some false ∧
    (limits ["apihighlimits"]
      ((login ((limits ["apihighlimits"] ⟨"u", none, none, none⟩ (50 : Nat) 500).2.1)
        "a" "b" none [LoginResult.other]).2.1) (50 : Nat) 500).2.2 = [] := by
  decide

/-- Claim C6, amended: with an empty permission cache, `limits` issues
exactly the one rights-lookup request `action=query, meta=userinfo,
uiprop=rights`, returns `high` exactly when the fetched rights list
contains `apihighlimits`, and stores that flag; with a populated cache it
issues no request and answers from the flag; the cache is emptied by
`logout` and by a login that returns `True` (so the next `limits` call
fetches afresh), while all other state is untouched by `limits`. -/
theorem limits_single_fetch_and_invalidation :
    (∀ (A : Type) (rights : List String) (url : String)
        (ns ps : Option (List (Int × String))) (low high : A),
      limits rights ⟨url, none, ns, ps⟩ low high =
        ((if rights.contains "apihighlimits" then high else low),
          ⟨url, some (rights.contains "apihighlimits"), ns, ps⟩,
          [rights_request ⟨url, none, ns, ps⟩])) ∧
    (∀ (A : Type) (rights : List String) (url : String) (b : Bool)
        (ns ps : Option (List (Int × String))) (low high : A),
      limits rights ⟨url, some b, ns, ps⟩ low high =
        ((if b then high else low), ⟨url, some b, ns, ps⟩, [])) ∧
    (∀ st : ClientState, (logout st).2.1.high_limits = none) ∧
    (∀ (st : ClientState) (u p : String) (d : Option String) (script : List LoginResult),
      (login st u p d script).1 = some true →
      (login st u p d script).2.1.high_limits = none) := by
  refine ⟨?_, ?_, ?_, ?_⟩
  · intro A rights url ns ps low high
    rfl
  · intro A rights url b ns ps low high
    rfl
  · intro st
    rfl
  · intro st u p d script h
    have h2 := do_login_true_state st u p none d script h
    show (do_login st u p none d script).2.1.high_limits = none
    rw [h2]

theorem limits_single_fetch_and_invalidation_witness :
    (login ⟨"u", some false, none, none⟩ "a" "b" none
      [LoginResult.needToken "t", LoginResult.success]).1 = some true ∧
    (login ⟨"u", some false, none, none⟩ "a" "b" none
      [LoginResult.needToken "t", LoginResult.success]).2.1.high_limits = none :=
  ⟨by decide,
    limits_single_fetch_and_invalidation.2.2.2 ⟨"u", some false, none, none⟩ "a" "b" none
      [LoginResult.needToken "t", LoginResult.success] (by decide)⟩

theorem normalize_requests_shape (t : Transport) (jl : String → Option PyJson)
    (st : ClientState) :
    (normalize_api_url t jl st).1 = [tester_request st.api_url] ∨
    ∃ u2, (normalize_api_url t jl st).1 = [tester_request st.api_url, tester_request u2] := by
  unfold normalize_api_url
  split
  · exact Or.inl rfl
  · split
    · exact Or.inl rfl
    · split
      · dsimp only
        split
        · exact Or.inr ⟨_, rfl⟩
        · split
          · exact Or.inr ⟨_, rfl⟩
          · exact Or.inr ⟨_, rfl⟩
      · exact Or.inl rfl

/-- Claim C3 counterexample: on a client whose URL contains `index.php` and
whose first probe fails to decode, `normalize_api_url` issues both probe
requests, and both are POST requests (the inner `tester` calls
`_fetch_http` without `force_get`), so the claim that the probes are sent
as GET requests is false. -/
theorem normalize_probes_not_get_cex :
    ((normalize_api_url (fun _ => Except.ok "x") (fun _ => none)
      ⟨"http://w/index.php", none, none, none⟩).1.map Request.method)
      = [HttpMethod.post, HttpMethod.post] := by
  rfl

/-- Claim C3, amended: every probe request issued by `normalize_api_url` —
the probe of the configured URL and the probe of the `api.php`-substituted
candidate — is sent as a POST-mode fetch (`tester` leaves `force_get` at
`False`), never as a GET. -/
theorem normalize_probes_are_post (t : Transport) (jl : String → Option PyJson)
    (st : ClientState) (r : Request) (hr : r ∈ (normalize_api_url t jl st).1) :
    r.method = HttpMethod.post := by
  rcases normalize_requests_shape t jl st with h | ⟨u2, h⟩
  · rw [h] at hr
    simp at hr
    rw [hr]
    rfl
  · rw [h] at hr
    simp at hr
    rcases hr with rfl | rfl <;> rfl

theorem normalize_probes_are_post_witness :
    tester_request "u" ∈ (normalize_api_url (fun _ => Except.ok "x") (fun _ => none)
      ⟨"u", none, none, none⟩).1 ∧
    (tester_request "u").method = HttpMethod.post :=
  ⟨by decide,
    normalize_probes_are_post (fun _ => Except.ok "x") (fun _ => none)
      ⟨"u", none, none, none⟩ (tester_request "u") (by decide)⟩

/-- Claim C4 counterexample: when the transport itself fails (network or
HTTP-status error) on the probe, `normalize_api_url` propagates the error
instead of returning the `None` result, so the claim that it never raises
is false. -/
theorem normalize_raises_on_transport_error_cex :
    (normalize_api_url (fun _ => Except.error ()) (fun _ => none)
      ⟨"u", none, none, none⟩).2 = Except.error () := by
  rfl

/-- Claim C4, amended: when every probe transports successfully but fails to
decode as (truthy) JSON — the only failure mode the inner `tester` catches —
`normalize_api_url` returns the explicit `None` result and leaves the state
unchanged; transport and HTTP-status errors, by contrast, propagate as
exceptions (see the counterexample). -/
theorem normalize_tolerates_decode_failure (t : Transport) (jl : String → Option PyJson)
    (st : ClientState)
    (h1 : ∃ s, t (tester_request st.api_url) = Except.ok s ∧ jsonTruthy (jl s) = false)
    (h2 : ∃ s, t (tester_request (String.mk (splitHead ("index.php".data)
      (st.api_url.data)) ++ "api.php")) = Except.ok s ∧ jsonTruthy (jl s) = false) :
    (normalize_api_url t jl st).2 = Except.ok (none, st) := by
  obtain ⟨s1, e1, f1⟩ := h1
  obtain ⟨s2, e2, f2⟩ := h2
  have ht1 : tester t jl st.api_url = Except.ok (jl s1) := by
    unfold tester
    rw [e1]
  have ht2 : tester t jl (String.mk (splitHead ("index.php".data) (st.api_url.data))
      ++ "api.php") = Except.ok (jl s2) := by
    unfold tester
    rw [e2]
  unfold normalize_api_url
  simp only [ht1, f1, ht2, f2, Bool.false_eq_true, if_false]
  split <;> rfl

theorem normalize_tolerates_decode_failure_witness :
    (normalize_api_url (fun _ => Except.ok "nope") (fun _ => none)
      ⟨"http://w/index.php", none, none, none⟩).2
      = Except.ok (none, ⟨"http://w/index.php", none, none, none⟩) :=
  normalize_tolerates_decode_failure (fun _ => Except.ok "nope") (fun _ => none)
    ⟨"http://w/index.php", none, none, none⟩ ⟨"nope", rfl, rfl⟩ ⟨"nope", rfl, rfl⟩

/-- Claim C7: from a fresh client, `namespaces(False)` fetches the table
once (one siteinfo request), caches the partition into content namespaces
(ids at least 0) and psuedo namespaces (negative ids), and returns the
content mapping; a following `namespaces(True)` issues no request and
returns the content mapping updated with the psuedo mapping, whose key set
contains every key of the first result. -/
theorem namespaces_one_fetch_superset (info info2 : List (Int × String)) (url : String)
    (hl : Option Bool) :
    namespaces info ⟨url, hl, none, none⟩ false =
      some (contentOf info,
        ⟨url, hl, some (contentOf info), some (pseudoOf info)⟩,
        [siteinfo_ns_request ⟨url, hl, none, none⟩]) ∧
    namespaces info2 ⟨url, hl, some (contentOf info), some (pseudoOf info)⟩ true =
      some (updateMap (contentOf info) (pseudoOf info),
        ⟨url, hl, some (contentOf info), some (pseudoOf info)⟩, []) ∧
    ∀ k : Int, k ∈ (contentOf info).map Prod.fst →
      k ∈ (updateMap (contentOf info) (pseudoOf info)).map Prod.fst := by
  refine ⟨rfl, rfl, ?_⟩
  intro k hk
  exact mem_keys_updateMap _ _ k hk

theorem namespaces_one_fetch_superset_witness :
    (0 : Int) ∈ (contentOf [(-2, "Media"), (0, ""), (1, "Talk")]).map Prod.fst ∧
    (0 : Int) ∈ (updateMap (contentOf [(-2, "Media"), (0, ""), (1, "Talk")])
      (pseudoOf [(-2, "Media"), (0, ""), (1, "Talk")])).map Prod.fst :=
  ⟨by decide,
    (namespaces_one_fetch_superset [(-2, "Media"), (0, ""), (1, "Talk")] [] "u" none).2.2
      0 (by decide)⟩

theorem digitChar_isDigitNd (k : Nat) (h : k < 10) : isDigitNd (digitChar k) = true := by
  interval_cases k <;> decide

theorem digValNd_digitChar (k : Nat) (h : k < 10) : digValNd (digitChar k) = k := by
  interval_cases k <;> decide

theorem match_Y_pad4 (y : Nat) (hy : y ≤ 9999) (rest : List Char) :
    match_Y (pad4 y ++ rest) = some (y, rest) := by
  have h1 : y / 1000 % 10 < 10 := Nat.mod_lt _ (by omega)
  have h2 : y / 100 % 10 < 10 := Nat.mod_lt _ (by omega)
  have h3 : y / 10 % 10 < 10 := Nat.mod_lt _ (by omega)
  have h4 : y % 10 < 10 := Nat.mod_lt _ (by omega)
  simp only [pad4, List.cons_append, List.nil_append, match_Y,
    digitChar_isDigitNd _ h1, digitChar_isDigitNd _ h2, digitChar_isDigitNd _ h3,
    digitChar_isDigitNd _ h4, Bool.and_self, if_true,
    digValNd_digitChar _ h1, digValNd_digitChar _ h2, digValNd_digitChar _ h3,
    digValNd_digitChar _ h4, Option.some.injEq, Prod.mk.injEq, and_true]
  omega

theorem match_m_pad2 (mo : Nat) (hl : 1 ≤ mo) (hh : mo ≤ 12) (rest : List Char) :
    match_m (pad2 mo ++ rest) = some (mo, rest) := by
  interval_cases mo <;> rfl

theorem match_d_pad2 (d : Nat) (hl : 1 ≤ d) (hh : d ≤ 31) (rest : List Char) :
    match_d (pad2 d ++ rest) = some (d, rest) := by
  interval_cases d <;> rfl

theorem match_H_pad2 (h : Nat) (hh : h ≤ 23) (rest : List Char) :
    match_H (pad2 h ++ rest) = some (h, rest) := by
  interval_cases h <;> rfl

theorem match_M_pad2 (mi : Nat) (hh : mi ≤ 59) (rest : List Char) :
    match_M (pad2 mi ++ rest) = some (mi, rest) := by
  interval_cases mi <;> rfl

theorem match_S_pad2 (s : Nat) (hh : s ≤ 59) (rest : List Char) :
    match_S (pad2 s ++ rest) = some (s, rest) := by
  interval_cases s <;> rfl

theorem matchLit_cons (c cAlt : Char) (rest : List Char) :
    matchLit c cAlt (c :: rest) = some rest := by
  simp [matchLit]

theorem daysInMonth_le_31 (y m : Nat) : daysInMonth y m ≤ 31 := by
  unfold daysInMonth
  split_ifs <;> omega

theorem scanDate_dateChars (dt : PyDateTime) (h : validDate dt) :
    scanDate (dateChars dt) =
      some (dt.year, dt.month, dt.day, dt.hour, dt.minute, dt.second) := by
  have h' : validRanges dt.year dt.month dt.day dt.hour dt.minute dt.second := h
  unfold validRanges at h'
  obtain ⟨h1, h2, h3, h4, h5, h6, h7, h8, h9⟩ := h'
  have hd31 : dt.day ≤ 31 := le_trans h6 (daysInMonth_le_31 dt.year dt.month)
  simp only [dateChars, scanDate, match_Y_pad4 dt.year h2, Option.some_bind,
    matchLit_cons, match_m_pad2 dt.month h3 h4, match_d_pad2 dt.day h5 hd31,
    match_H_pad2 dt.hour h7, match_M_pad2 dt.minute h8, match_S_pad2 dt.second h9]

/-- Claim C8: `parse_date` applied to `2013-05-17T10:00:00Z` yields the
datetime `2013-05-17 10:00:00`, whose re-serialization in the format
`YYYY-MM-DDTHH:MM:SSZ` reproduces the original string; and for every
datetime the `datetime` constructor accepts — that is, for every string in
that exact format denoting a valid date-time — parsing its exact-format
rendering returns exactly that datetime. -/
theorem parse_date_roundtrip :
    (parse_date "2013-05-17T10:00:00Z" = some ⟨2013, 5, 17, 10, 0, 0⟩ ∧
      format_date ⟨2013, 5, 17, 10, 0, 0⟩ = "2013-05-17T10:00:00Z") ∧
    ∀ dt : PyDateTime, validDate dt → parse_date (format_date dt) = some dt := by
  refine ⟨⟨by decide, by decide⟩, ?_⟩
  intro dt h
  have hs : (format_date dt).data = dateChars dt := rfl
  unfold parse_date
  rw [hs, scanDate_dateChars dt h]
  show mkDatetime dt.year dt.month dt.day dt.hour dt.minute dt.second = some dt
  unfold mkDatetime
  rw [if_pos (show validRanges dt.year dt.month dt.day dt.hour dt.minute dt.second from h)]

theorem parse_date_roundtrip_witness :
    validDate ⟨2013, 5, 17, 10, 0, 0⟩ ∧
    parse_date (format_date ⟨2013, 5, 17, 10, 0, 0⟩) = some ⟨2013, 5, 17, 10, 0, 0⟩ :=
  ⟨by decide, parse_date_roundtrip.2 ⟨2013, 5, 17, 10, 0, 0⟩ (by decide)⟩

